import Mathlib

/-!
Shallow embedding of the `mirage_rpc` dual-transport endpoint
(`src/mirage_rpc_server.h`, `src/mirage_rpc_client.h`).

Modelling conventions:
* C++ exceptions become an explicit `Err` value returned through `Except` /
  `Option`; each constructor corresponds to one throw site family.
* A ZMQ payload pointer/size pair becomes `Option Msg` (`none` models a null
  pointer, the byte count is the list length).
* The environment's behaviour (gRPC reachability, socket bind/connect
  success, per-send outcome of the non-blocking ZMQ send) is passed in as
  oracle parameters consumed exactly where the code consults the library.
  `zmq::socket_t::send(msg, send_flags::dontwait)` returns an empty optional
  on EAGAIN and throws `zmq::error_t` on any other failure; this is modelled
  by `SendOutcome`.
* Thread bodies (`start_grpc`, `start_zmq`) are modelled as total functions
  from state to state; the `catch` blocks that keep exceptions from escaping
  the thread are the `match` on the body's error component.
* Lock acquisitions/releases, queue pushes, condition-variable notification
  and actual network sends are recorded in an `RpcAction` trace so that
  lock/network-ordering claims can be stated.
-/

/-- ZMQ socket type (`zmq::socket_type` values used by the sources). -/
inductive SocketType
  | pub | sub | push | pull | req | rep
deriving DecidableEq, Repr

/-- Error values; each constructor stands for one family of C++ throw sites. -/
inductive Err
  | invalidArgument       -- std::invalid_argument
  | notRunning            -- std::runtime_error "服务器未运行/客户端未连接"
  | socketTypeUnsupported -- std::runtime_error "当前的 ZMQ socket 类型不支持发送消息"
  | connectionTimeout     -- std::runtime_error "gRPC 连接超时"
  | zmqFatal              -- zmq::error_t escaping a socket operation
  | zmqSendFailed         -- std::runtime_error "发送 ZMQ 消息失败"
  | grpcBuildFailed       -- std::runtime_error "无法启动 gRPC 服务器"
deriving DecidableEq, Repr

/-- Opaque byte payload (a `zmq::message_t` body). -/
abbrev Msg := List Nat

/-- Observable actions recorded while an operation runs. -/
inductive RpcAction
  | acquire_queue_lock
  | release_queue_lock
  | acquire_socket_lock
  | release_socket_lock
  | push_msg (m : Msg)
  | notify_one
  | net_send (m : Msg)
  | join_grpc
  | join_zmq
deriving DecidableEq, Repr

/-- Outcome of one non-blocking `socket_->send(msg, send_flags::dontwait)`:
success, EAGAIN (empty optional, no exception), or a thrown `zmq::error_t`. -/
inductive SendOutcome
  | ok
  | would_block
  | fatal
deriving DecidableEq, Repr

/-- Outcome of one non-blocking `socket_->recv(msg, recv_flags::dontwait)`. -/
inductive RecvEv
  | none_avail
  | got (m : Msg)
  | throw_err
deriving DecidableEq, Repr

/-- Environment behaviour for one iteration of the server's ZMQ loop. -/
structure IterEv where
  recv : RecvEv
  sends : List SendOutcome
  try_lock_ok : Bool
deriving DecidableEq, Repr

/-- Server configuration struct `mirage_rpc_config`. -/
structure mirage_rpc_config where
  grpc_addr : String := ""
  zmq_addr : String := ""
  zmq_socket_type : SocketType := .pub
  has_zmq_message_handler : Bool := false
  zmq_io_threads : Int := 1
  zmq_linger_ms : Int := 0
  zmq_hwm : Int := 1000
  grpc_max_receive_message_size : Nat := 1024 * 1024 * 4
  grpc_max_send_message_size : Nat := 1024 * 1024 * 4
deriving DecidableEq, Repr

/-- `mirage_rpc_config::set_grpc_addr`. -/
def mirage_rpc_config.set_grpc_addr (c : mirage_rpc_config) (ip : String) (port : Int) :
    Except Err mirage_rpc_config :=
  if ip = "" ∨ port ≤ 0 ∨ port > 65535 then .error .invalidArgument
  else .ok { c with grpc_addr := ip ++ ":" ++ toString port }

/-- `mirage_rpc_config::set_zmq_ipc_addr`. -/
def mirage_rpc_config.set_zmq_ipc_addr (c : mirage_rpc_config) (name : String) :
    Except Err mirage_rpc_config :=
  if name = "" then .error .invalidArgument
  else .ok { c with zmq_addr := "ipc:///tmp/" ++ name ++ ".sock" }

/-- `mirage_rpc_config::set_zmq_tcp_addr`. -/
def mirage_rpc_config.set_zmq_tcp_addr (c : mirage_rpc_config) (ip : String) (port : Int) :
    Except Err mirage_rpc_config :=
  if ip = "" ∨ port ≤ 0 ∨ port > 65535 then .error .invalidArgument
  else .ok { c with zmq_addr := "tcp://" ++ ip ++ ":" ++ toString port }

/-- Client configuration struct `mirage_rpc_client_config`. -/
structure mirage_rpc_client_config where
  grpc_addr : String := ""
  zmq_addr : String := ""
  zmq_socket_type : SocketType := .sub
  has_zmq_message_handler : Bool := false
  zmq_io_threads : Int := 1
  zmq_linger_ms : Int := 1000
  zmq_rcv_timeout_ms : Int := 1000
  grpc_max_receive_message_size : Nat := 1024 * 1024 * 4
  grpc_max_send_message_size : Nat := 1024 * 1024 * 4
  grpc_timeout_ms : Int := 30000
deriving DecidableEq, Repr

/-- `mirage_rpc_client_config::set_grpc_addr`. -/
def mirage_rpc_client_config.set_grpc_addr (c : mirage_rpc_client_config)
    (ip : String) (port : Int) : Except Err mirage_rpc_client_config :=
  if ip = "" ∨ port ≤ 0 ∨ port > 65535 then .error .invalidArgument
  else .ok { c with grpc_addr := ip ++ ":" ++ toString port }

/-- `mirage_rpc_client_config::set_zmq_ipc_addr`. -/
def mirage_rpc_client_config.set_zmq_ipc_addr (c : mirage_rpc_client_config)
    (name : String) : Except Err mirage_rpc_client_config :=
  if name = "" then .error .invalidArgument
  else .ok { c with zmq_addr := "ipc:///tmp/" ++ name ++ ".sock" }

/-- `mirage_rpc_client_config::set_zmq_tcp_addr`. -/
def mirage_rpc_client_config.set_zmq_tcp_addr (c : mirage_rpc_client_config)
    (ip : String) (port : Int) : Except Err mirage_rpc_client_config :=
  if ip = "" ∨ port ≤ 0 ∨ port > 65535 then .error .invalidArgument
  else .ok { c with zmq_addr := "tcp://" ++ ip ++ ":" ++ toString port }

/-- Socket types whose loop branch attempts a receive (`sub`, `pull`, `rep`),
as tested in both `start_zmq` loops. -/
def receivable_type (t : SocketType) : Bool :=
  t = SocketType.sub ∨ t = SocketType.pull ∨ t = SocketType.rep

/-- Socket types the client's `zmq_send` accepts (`pub`, `push`, `req`). -/
def sendable_type (t : SocketType) : Bool :=
  t = SocketType.pub ∨ t = SocketType.push ∨ t = SocketType.req

/-- State of a `mirage_rpc_server` object plus the liveness of its two
worker threads.  `*_thread_spawned` means the `std::thread` member is
joinable; `*_thread_alive` means the thread function has not yet returned. -/
structure server_state where
  config : mirage_rpc_config := {}
  running : Bool := false
  queue : List Msg := []
  has_context : Bool := false
  has_socket : Bool := false
  has_grpc_server : Bool := false
  grpc_thread_spawned : Bool := false
  grpc_thread_alive : Bool := false
  zmq_thread_spawned : Bool := false
  zmq_thread_alive : Bool := false
  sock_linger : Option Int := none
  sock_sndhwm : Option Int := none
  sock_rcvhwm : Option Int := none
deriving DecidableEq, Repr

/-- State of a `mirage_rpc_client` object plus the liveness of its ZMQ
worker thread. -/
structure client_state where
  config : mirage_rpc_client_config := {}
  connected : Bool := false
  has_channel : Bool := false
  has_context : Bool := false
  has_socket : Bool := false
  zmq_thread_spawned : Bool := false
  zmq_thread_alive : Bool := false
  sock_linger : Option Int := none
  sock_rcvtimeo : Option Int := none
deriving DecidableEq, Repr

/-- `mirage_rpc_server::validate_config`: only checks that both address
strings are non-empty. -/
def validate_config (c : mirage_rpc_config) : Except Err Unit :=
  if c.grpc_addr = "" then .error .invalidArgument
  else if c.zmq_addr = "" then .error .invalidArgument
  else .ok ()

/-- `mirage_rpc_client::validate_config`. -/
def client_validate_config (c : mirage_rpc_client_config) : Except Err Unit :=
  if c.grpc_addr = "" then .error .invalidArgument
  else if c.zmq_addr = "" then .error .invalidArgument
  else .ok ()

/-- `mirage_rpc_server::cleanup_resources`: closes socket and context,
resets the gRPC server handle and empties the outbound queue.  Thread
handles are not touched. -/
def server_cleanup_resources (s : server_state) : server_state :=
  { s with has_socket := false, has_context := false, has_grpc_server := false,
           queue := [] }

/-- `mirage_rpc_client::cleanup_resources`: closes socket and context and
releases the gRPC channel. -/
def client_cleanup_resources (s : client_state) : client_state :=
  { s with has_socket := false, has_context := false, has_channel := false }

/-- `mirage_rpc_server::start`: no-op (with a warning) when already running;
otherwise copies the config, validates it, spawns the gRPC and ZMQ threads
and stores `running_ = true`.  On a validation failure the catch block runs
`cleanup_resources` and rethrows.  Note that `start` returns without ever
waiting for either transport to come up. -/
def server_start (s : server_state) (cfg : mirage_rpc_config) :
    server_state × Except Err Unit :=
  if s.running then (s, .ok ())
  else
    let s1 := { s with config := cfg }
    match validate_config cfg with
    | .error e => (server_cleanup_resources s1, .error e)
    | .ok _ =>
      ({ s1 with grpc_thread_spawned := true, grpc_thread_alive := true,
                 zmq_thread_spawned := true, zmq_thread_alive := true,
                 running := true }, .ok ())

/-- `mirage_rpc_server::start_grpc` (the gRPC thread body) up to the point
where it blocks in `grpc_server_->Wait()`.  `build_ok` is whether
`BuildAndStart` produced a server.  On failure the catch block stores
`running_ = false` and the thread function returns (thread no longer
alive); on success the thread keeps running, blocked in `Wait()`. -/
def server_start_grpc (build_ok : Bool) (s : server_state) : server_state :=
  if build_ok then { s with has_grpc_server := true }
  else { s with running := false, grpc_thread_alive := false }

/-- `mirage_rpc_server::zmq_send`: null/empty payload check, running check,
then append to the queue under `queue_mutex_` and `cv_.notify_one()`. -/
def server_zmq_send (s : server_state) (data : Option Msg) :
    server_state × Except Err Unit × List RpcAction :=
  if data = none ∨ data = some [] then (s, .error .invalidArgument, [])
  else if s.running = false then (s, .error .notRunning, [])
  else
    let m := data.getD []
    ({ s with queue := s.queue ++ [m] }, .ok (),
     [.acquire_queue_lock, .push_msg m, .release_queue_lock, .notify_one])

/-- `mirage_rpc_client::zmq_send`: null/empty payload check, connected
check, socket-mode check, then — unlike the server — a direct blocking
`send(msg, send_flags::none)` on the caller's thread while holding
`socket_mutex_` (silently skipped when the socket pointer is null).
`send_ok` is whether that send throws `zmq::error_t`. -/
def client_zmq_send (s : client_state) (data : Option Msg) (send_ok : Bool) :
    client_state × Except Err Unit × List RpcAction :=
  if data = none ∨ data = some [] then (s, .error .invalidArgument, [])
  else if s.connected = false then (s, .error .notRunning, [])
  else if sendable_type s.config.zmq_socket_type = false then
    (s, .error .socketTypeUnsupported, [])
  else if s.has_socket then
    let m := data.getD []
    (s, if send_ok then .ok () else .error .zmqSendFailed,
     [.acquire_socket_lock, .net_send m, .release_socket_lock])
  else (s, .ok (), [.acquire_socket_lock, .release_socket_lock])

/-- Inner while-loop of `mirage_rpc_server::process_send_queue`.  Per
iteration the front message is popped, the lock is released, the
non-blocking send runs, and the lock is re-acquired.  EAGAIN yields an
empty optional whose value is ignored (the popped message is already gone
and draining continues); a thrown `zmq::error_t` is caught and breaks the
loop (the popped message is likewise gone).  Returns (remaining queue,
successfully sent messages, action trace). -/
def drain_loop : List SendOutcome → List Msg → Bool → List Msg × List Msg × List RpcAction
  | _, q, false => (q, [], [])
  | _, [], _ => ([], [], [])
  | outs, m :: rest, true =>
    match outs.headD .ok with
    | .ok =>
      let r := drain_loop outs.tail rest true
      (r.1, m :: r.2.1,
       [.release_queue_lock, .net_send m, .acquire_queue_lock] ++ r.2.2)
    | .would_block =>
      let r := drain_loop outs.tail rest true
      (r.1, r.2.1,
       [.release_queue_lock, .net_send m, .acquire_queue_lock] ++ r.2.2)
    | .fatal => (rest, [], [.release_queue_lock, .net_send m])

/-- `mirage_rpc_server::process_send_queue`: `try_to_lock` on
`queue_mutex_`; if the lock is contended the call returns without
draining, otherwise `drain_loop` runs. -/
def process_send_queue (try_lock_ok : Bool) (outs : List SendOutcome)
    (q : List Msg) (running : Bool) : List Msg × List Msg × List RpcAction :=
  if try_lock_ok then drain_loop outs q running else (q, [], [])

/-- Socket setup portion of `mirage_rpc_server::start_zmq`: creates the
context and socket, sets `linger`, `sndhwm`, `rcvhwm` from the config and
binds.  `bind_ok` is whether `bind` succeeds; a failure is a thrown
`zmq::error_t`. -/
def server_zmq_setup (bind_ok : Bool) (s : server_state) :
    server_state × Option Err :=
  let s1 := { s with has_context := true, has_socket := true,
                     sock_linger := some s.config.zmq_linger_ms,
                     sock_sndhwm := some s.config.zmq_hwm,
                     sock_rcvhwm := some s.config.zmq_hwm }
  if bind_ok then (s1, none) else (s1, some .zmqFatal)

/-- Main while-loop of `mirage_rpc_server::start_zmq`.  Each iteration:
for receivable socket types a non-blocking receive (whose `zmq::error_t`
escapes the loop), the handler callback on a received message, then
`process_send_queue`.  The loop exits when `running_` reads false.
Returns (state, messages handed to the handler, escaped error). -/
def server_zmq_loop : List IterEv → server_state → List Msg →
    server_state × List Msg × Option Err
  | [], s, handled => (s, handled, none)
  | ev :: rest, s, handled =>
    if s.running = false then (s, handled, none)
    else if receivable_type s.config.zmq_socket_type ∧ ev.recv = .throw_err then
      (s, handled, some .zmqFatal)
    else
      let handled' :=
        if receivable_type s.config.zmq_socket_type then
          match ev.recv with
          | .got m => if s.config.has_zmq_message_handler then handled ++ [m] else handled
          | _ => handled
        else handled
      let q' := (process_send_queue ev.try_lock_ok ev.sends s.queue s.running).1
      server_zmq_loop rest { s with queue := q' } handled'

/-- Try-block body of `mirage_rpc_server::start_zmq` (setup then loop);
the error component is the exception reaching the catch blocks. -/
def server_zmq_body (bind_ok : Bool) (iters : List IterEv) (s : server_state) :
    server_state × List Msg × Option Err :=
  match server_zmq_setup bind_ok s with
  | (s1, some e) => (s1, [], some e)
  | (s1, none) => server_zmq_loop iters s1 []

/-- `mirage_rpc_server::start_zmq` (the ZMQ thread body) as a total
function: any escaped error is caught, logged and converted into
`running_ = false`; no exception crosses the thread boundary.  The thread
function returning is modelled by `zmq_thread_alive := false`. -/
def server_start_zmq (bind_ok : Bool) (iters : List IterEv) (s : server_state) :
    server_state × List Msg :=
  match server_zmq_body bind_ok iters s with
  | (s1, handled, some _) =>
    ({ s1 with running := false, zmq_thread_alive := false }, handled)
  | (s1, handled, none) => ({ s1 with zmq_thread_alive := false }, handled)

/-- `mirage_rpc_server::stop`: no-op when `running_` is already false;
otherwise clears the flag, notifies queue waiters, shuts the gRPC server
down, joins both threads and runs `cleanup_resources`.  The returned trace
records which threads were joined. -/
def server_stop (s : server_state) : server_state × List RpcAction :=
  if s.running = false then (s, [])
  else
    let joins := (if s.grpc_thread_spawned then [RpcAction.join_grpc] else []) ++
                 (if s.zmq_thread_spawned then [RpcAction.join_zmq] else [])
    (server_cleanup_resources
      { s with running := false,
               grpc_thread_alive := false, grpc_thread_spawned := false,
               zmq_thread_alive := false, zmq_thread_spawned := false }, joins)

/-- `mirage_rpc_client::setup_grpc_channel`: creates the channel then
blocks in `WaitForConnected` up to `grpc_timeout_ms`; `reachable` is
whether the channel reports connected within the deadline.  On timeout a
`std::runtime_error` is thrown. -/
def setup_grpc_channel (reachable : Bool) (s : client_state) :
    client_state × Option Err :=
  let s1 := { s with has_channel := true }
  if reachable then (s1, none) else (s1, some .connectionTimeout)

/-- `mirage_rpc_client::connect`: no-op when already connected; otherwise
copies the config, validates it, sets up the gRPC channel (waiting for
reachability), spawns the ZMQ thread and stores `connected_ = true`.  Any
exception triggers `cleanup_resources` and is rethrown. -/
def client_connect (reachable : Bool) (s : client_state)
    (cfg : mirage_rpc_client_config) : client_state × Except Err Unit :=
  if s.connected then (s, .ok ())
  else
    let s1 := { s with config := cfg }
    match client_validate_config cfg with
    | .error e => (client_cleanup_resources s1, .error e)
    | .ok _ =>
      match setup_grpc_channel reachable s1 with
      | (s2, some e) => (client_cleanup_resources s2, .error e)
      | (s2, none) =>
        ({ s2 with zmq_thread_spawned := true, zmq_thread_alive := true,
                   connected := true }, .ok ())

/-- `mirage_rpc_client::disconnect`: no-op when not connected; otherwise
clears the flag, joins the ZMQ thread and runs `cleanup_resources`. -/
def client_disconnect (s : client_state) : client_state × List RpcAction :=
  if s.connected = false then (s, [])
  else
    let joins := if s.zmq_thread_spawned then [RpcAction.join_zmq] else []
    (client_cleanup_resources
      { s with connected := false,
               zmq_thread_alive := false, zmq_thread_spawned := false }, joins)

/-- Socket setup portion of `mirage_rpc_client::start_zmq`: context and
socket creation, `linger` and `rcvtimeo` options, then `connect`;
`connect_ok` is whether that call succeeds. -/
def client_zmq_setup (connect_ok : Bool) (s : client_state) :
    client_state × Option Err :=
  let s1 := { s with has_context := true, has_socket := true,
                     sock_linger := some s.config.zmq_linger_ms,
                     sock_rcvtimeo := some s.config.zmq_rcv_timeout_ms }
  if connect_ok then (s1, none) else (s1, some .zmqFatal)

/-- Main while-loop of `mirage_rpc_client::start_zmq`: receive-only; a
`zmq::error_t` from the non-blocking receive escapes the loop. -/
def client_zmq_loop : List RecvEv → client_state → List Msg →
    client_state × List Msg × Option Err
  | [], s, handled => (s, handled, none)
  | ev :: rest, s, handled =>
    if s.connected = false then (s, handled, none)
    else if receivable_type s.config.zmq_socket_type then
      match ev with
      | .throw_err => (s, handled, some .zmqFatal)
      | .got m =>
        client_zmq_loop rest s
          (if s.config.has_zmq_message_handler then handled ++ [m] else handled)
      | .none_avail => client_zmq_loop rest s handled
    else client_zmq_loop rest s handled

/-- Try-block body of `mirage_rpc_client::start_zmq`. -/
def client_zmq_body (connect_ok : Bool) (evs : List RecvEv) (s : client_state) :
    client_state × List Msg × Option Err :=
  match client_zmq_setup connect_ok s with
  | (s1, some e) => (s1, [], some e)
  | (s1, none) => client_zmq_loop evs s1 []

/-- `mirage_rpc_client::start_zmq` (the ZMQ thread body) as a total
function: any escaped error is caught and converted into
`connected_ = false`; no exception crosses the thread boundary. -/
def client_start_zmq (connect_ok : Bool) (evs : List RecvEv) (s : client_state) :
    client_state × List Msg :=
  match client_zmq_body connect_ok evs s with
  | (s1, handled, some _) =>
    ({ s1 with connected := false, zmq_thread_alive := false }, handled)
  | (s1, handled, none) => ({ s1 with zmq_thread_alive := false }, handled)

/-- True when the trace contains a network send. -/
def has_net_send : List RpcAction → Bool
  | [] => false
  | .net_send _ :: _ => true
  | _ :: rest => has_net_send rest

/-- True when every network send in the trace is immediately preceded by a
release of the queue lock (so the lock is never held across a send). -/
def unlocked_before_send : List RpcAction → Bool
  | [] => true
  | .release_queue_lock :: .net_send _ :: rest => unlocked_before_send rest
  | .net_send _ :: _ => false
  | _ :: rest => unlocked_before_send rest

/-- A well-formed server configuration used by concrete scenarios. -/
def cfg_ok : mirage_rpc_config :=
  { grpc_addr := "0.0.0.0:50051", zmq_addr := "tcp://*:5555" }

/-- A server configuration whose ZMQ address was produced by
`set_zmq_ipc_addr` from the filesystem-unsafe IPC name `a/../b`. -/
def cfg_unsafe_ipc : mirage_rpc_config :=
  { grpc_addr := "0.0.0.0:50051", zmq_addr := "ipc:///tmp/a/../b.sock" }

/-- A freshly constructed server object. -/
def idle_server : server_state := {}

/-- A well-formed client configuration used by concrete scenarios. -/
def ccfg_ok : mirage_rpc_client_config :=
  { grpc_addr := "127.0.0.1:50051", zmq_addr := "tcp://127.0.0.1:5555" }

/-- A connected client whose socket type is the default `sub`. -/
def cli_sub_connected : client_state :=
  { config := { grpc_addr := "127.0.0.1:50051", zmq_addr := "tcp://127.0.0.1:5555" },
    connected := true, has_channel := true, has_context := true,
    has_socket := true, zmq_thread_spawned := true, zmq_thread_alive := true }

/-- A connected client configured with the send-capable `pub` socket type. -/
def cli_pub_connected : client_state :=
  { config := { grpc_addr := "127.0.0.1:50051", zmq_addr := "tcp://127.0.0.1:5555",
                zmq_socket_type := .pub },
    connected := true, has_channel := true, has_context := true,
    has_socket := true, zmq_thread_spawned := true, zmq_thread_alive := true }

/-- A running server with a small configured high-water-mark and a queue
already holding `zmq_hwm` messages. -/
def srv_at_hwm : server_state :=
  { config := { grpc_addr := "0.0.0.0:50051", zmq_addr := "tcp://*:5555", zmq_hwm := 2 },
    running := true, queue := [[0], [0]],
    has_context := true, has_socket := true, has_grpc_server := true,
    grpc_thread_spawned := true, grpc_thread_alive := true,
    zmq_thread_spawned := true, zmq_thread_alive := true }

/-- A running server in the steady state (both threads up, empty queue). -/
def srv_running : server_state :=
  { config := cfg_ok, running := true,
    has_context := true, has_socket := true, has_grpc_server := true,
    grpc_thread_spawned := true, grpc_thread_alive := true,
    zmq_thread_spawned := true, zmq_thread_alive := true }

/-- A running server configured with the receive-only `sub` socket type. -/
def srv_running_sub : server_state :=
  { srv_running with config := { cfg_ok with zmq_socket_type := .sub } }

/-- Server scenario behind claim C8's counterexample: `start` succeeds, the
gRPC thread comes up and blocks in `Wait()`, the ZMQ thread's `bind` fails
(so the worker stores `running_ = false` and exits), then `stop()` is
called. -/
def errored_then_stop : server_state :=
  let s1 := (server_start idle_server cfg_ok).1
  let s2 := server_start_grpc true s1
  let s3 := (server_start_zmq false [] s2).1
  (server_stop s3).1

/-- Claim C9: for every host `H` and port `P` in 1–65535 the sync (gRPC)
address builder produces exactly `H:P` and the async ZMQ TCP builder
produces exactly `tcp://H:P`; for every non-empty IPC name `N` the IPC
builder produces exactly `ipc:///tmp/N.sock`; each builder rejects an
empty host/name or an out-of-range port with an invalid-argument error
(shown for both the server and the client configuration structs). -/
theorem C9_address_builders (c : mirage_rpc_config) (c' : mirage_rpc_client_config)
    (ip name ip2 name2 : String) (port port2 : Int)
    (hip : ip ≠ "") (hp1 : 1 ≤ port) (hp2 : port ≤ 65535) (hn : name ≠ "")
    (hbad : ip2 = "" ∨ port2 ≤ 0 ∨ port2 > 65535) (hn2 : name2 = "") :
    c.set_grpc_addr ip port = .ok { c with grpc_addr := ip ++ ":" ++ toString port } ∧
    c.set_zmq_tcp_addr ip port =
      .ok { c with zmq_addr := "tcp://" ++ ip ++ ":" ++ toString port } ∧
    c.set_zmq_ipc_addr name =
      .ok { c with zmq_addr := "ipc:///tmp/" ++ name ++ ".sock" } ∧
    c'.set_grpc_addr ip port = .ok { c' with grpc_addr := ip ++ ":" ++ toString port } ∧
    c'.set_zmq_tcp_addr ip port =
      .ok { c' with zmq_addr := "tcp://" ++ ip ++ ":" ++ toString port } ∧
    c'.set_zmq_ipc_addr name =
      .ok { c' with zmq_addr := "ipc:///tmp/" ++ name ++ ".sock" } ∧
    c.set_grpc_addr ip2 port2 = .error .invalidArgument ∧
    c.set_zmq_tcp_addr ip2 port2 = .error .invalidArgument ∧
    c'.set_grpc_addr ip2 port2 = .error .invalidArgument ∧
    c'.set_zmq_tcp_addr ip2 port2 = .error .invalidArgument ∧
    c.set_zmq_ipc_addr name2 = .error .invalidArgument ∧
    c'.set_zmq_ipc_addr name2 = .error .invalidArgument := by
  have hcond : ¬ (ip = "" ∨ port ≤ 0 ∨ port > 65535) := by
    rintro (h | h | h)
    · exact hip h
    · omega
    · omega
  refine ⟨?_, ?_, ?_, ?_, ?_, ?_, ?_, ?_, ?_, ?_, ?_, ?_⟩ <;>
    simp only [mirage_rpc_config.set_grpc_addr, mirage_rpc_config.set_zmq_tcp_addr,
      mirage_rpc_config.set_zmq_ipc_addr, mirage_rpc_client_config.set_grpc_addr,
      mirage_rpc_client_config.set_zmq_tcp_addr, mirage_rpc_client_config.set_zmq_ipc_addr,
      if_neg hcond, if_neg hn, if_pos hbad, if_pos hn2]

/-- Witness for C9: instantiation at host `127.0.0.1`, port 50051 and IPC
name `foo` (plus the rejected empty host / port 0 / empty name). -/
theorem C9_address_builders_witness :
    mirage_rpc_config.set_grpc_addr {} "127.0.0.1" 50051 =
      .ok { grpc_addr := "127.0.0.1" ++ ":" ++ toString (50051 : Int) } ∧
    mirage_rpc_client_config.set_zmq_ipc_addr {} "foo" =
      .ok { zmq_addr := "ipc:///tmp/" ++ "foo" ++ ".sock" } :=
  ⟨(C9_address_builders {} {} "127.0.0.1" "foo" "" "" 50051 0 (by decide) (by decide)
      (by decide) (by decide) (Or.inl rfl) rfl).1,
   (C9_address_builders {} {} "127.0.0.1" "foo" "" "" 50051 0 (by decide) (by decide)
      (by decide) (by decide) (Or.inl rfl) rfl).2.2.2.2.2.1⟩

/-- Claim C6 counterexample: the filesystem-unsafe IPC name `a/../b` is
accepted by `set_zmq_ipc_addr`, and `start` on the resulting configuration
raises no invalid-configuration error — it succeeds and spawns both worker
threads, contradicting the claim that start() validates every malformed
field (port range and IPC-name safety are never checked inside start). -/
theorem C6_counterexample :
    mirage_rpc_config.set_zmq_ipc_addr { grpc_addr := "0.0.0.0:50051" } "a/../b" =
      .ok cfg_unsafe_ipc ∧
    (server_start idle_server cfg_unsafe_ipc).2 = .ok () ∧
    (server_start idle_server cfg_unsafe_ipc).1.grpc_thread_spawned = true ∧
    (server_start idle_server cfg_unsafe_ipc).1.zmq_thread_spawned = true :=
  ⟨rfl, rfl, rfl, rfl⟩

/-- Claim C6 (amended): `start()`/`connect()` validate only that the two
address strings are non-empty; that check runs synchronously before any
thread is spawned or socket created, and on failure an invalid-configuration
error is raised with the thread handles and sockets untouched.  Port-range
and IPC-name emptiness are checked only by the config setters, and
filesystem safety of IPC names is not checked anywhere. -/
theorem C6_amended (s : server_state) (cs : client_state)
    (cfg cfg2 : mirage_rpc_config) (ccfg : mirage_rpc_client_config) (reachable : Bool)
    (hs : s.running = false) (hc : cs.connected = false)
    (hbad : cfg.grpc_addr = "" ∨ cfg.zmq_addr = "")
    (hcbad : ccfg.grpc_addr = "" ∨ ccfg.zmq_addr = "") :
    validate_config cfg = .error .invalidArgument ∧
    (validate_config cfg2 = .ok () ↔ (cfg2.grpc_addr ≠ "" ∧ cfg2.zmq_addr ≠ "")) ∧
    (server_start s cfg).2 = .error .invalidArgument ∧
    (server_start s cfg).1.grpc_thread_spawned = s.grpc_thread_spawned ∧
    (server_start s cfg).1.zmq_thread_spawned = s.zmq_thread_spawned ∧
    (server_start s cfg).1.running = false ∧
    (server_start s cfg).1.has_socket = false ∧
    (server_start s cfg).1.has_context = false ∧
    (client_connect reachable cs ccfg).2 = .error .invalidArgument ∧
    (client_connect reachable cs ccfg).1.zmq_thread_spawned = cs.zmq_thread_spawned ∧
    (client_connect reachable cs ccfg).1.connected = false := by
  have hv : validate_config cfg = .error .invalidArgument := by
    rcases hbad with h | h
    · simp [validate_config, h]
    · by_cases hg : cfg.grpc_addr = "" <;> simp [validate_config, h, hg]
  have hcv : client_validate_config ccfg = .error .invalidArgument := by
    rcases hcbad with h | h
    · simp [client_validate_config, h]
    · by_cases hg : ccfg.grpc_addr = "" <;> simp [client_validate_config, h, hg]
  have hss : server_start s cfg =
      (server_cleanup_resources { s with config := cfg }, .error .invalidArgument) := by
    simp [server_start, hs, hv]
  have hcc : client_connect reachable cs ccfg =
      (client_cleanup_resources { cs with config := ccfg }, .error .invalidArgument) := by
    simp [client_connect, hc, hcv]
  have hiff : validate_config cfg2 = .ok () ↔
      (cfg2.grpc_addr ≠ "" ∧ cfg2.zmq_addr ≠ "") := by
    unfold validate_config
    split_ifs <;> simp_all
  refine ⟨hv, hiff, ?_, ?_, ?_, ?_, ?_, ?_, ?_, ?_, ?_⟩ <;>
    first
      | (simp [hss, server_cleanup_resources, hs])
      | (simp [hcc, client_cleanup_resources, hc])

/-- Witness for C6 (amended): the default-constructed (all-empty) config is
rejected by `start`/`connect` before any thread is spawned. -/
theorem C6_amended_witness :
    (server_start idle_server {}).2 = .error .invalidArgument ∧
    (client_connect true {} {}).2 = .error .invalidArgument :=
  ⟨(C6_amended idle_server {} {} cfg_ok {} true rfl rfl (Or.inl rfl) (Or.inl rfl)).2.2.1,
   (C6_amended idle_server {} {} cfg_ok {} true rfl rfl (Or.inl rfl) (Or.inl rfl)).2.2.2.2.2.2.2.2.1⟩

/-- Claim C3 counterexample: a running server configured with
`zmq_hwm = 2` whose outbound queue already holds 2 messages accepts a
further `zmq_send` — the enqueue neither blocks nor drops, and the queue
grows to 3 > `zmq_hwm`, contradicting the claimed invariant. -/
theorem C3_counterexample :
    srv_at_hwm.config.zmq_hwm = 2 ∧
    (srv_at_hwm.queue.length : Int) = srv_at_hwm.config.zmq_hwm ∧
    (server_zmq_send srv_at_hwm (some [1])).2.1 = .ok () ∧
    ((server_zmq_send srv_at_hwm (some [1])).1.queue.length : Int) =
      srv_at_hwm.config.zmq_hwm + 1 :=
  ⟨rfl, rfl, rfl, rfl⟩

/-- Claim C3 (amended): the application-level outbound queue is unbounded —
for a running server every valid `zmq_send` unconditionally appends to the
queue, regardless of its current size relative to `zmq_hwm`; the
high-water-mark is applied only as the ZMQ socket options `sndhwm`/`rcvhwm`
during `start_zmq` socket setup. -/
theorem C3_amended (s s' : server_state) (m : Msg) (bind_ok : Bool)
    (hm : m ≠ []) (hr : s.running = true) :
    (server_zmq_send s (some m)).1.queue = s.queue ++ [m] ∧
    (server_zmq_send s (some m)).2.1 = .ok () ∧
    (server_zmq_setup bind_ok s').1.sock_sndhwm = some s'.config.zmq_hwm ∧
    (server_zmq_setup bind_ok s').1.sock_rcvhwm = some s'.config.zmq_hwm := by
  refine ⟨?_, ?_, ?_, ?_⟩ <;>
    first
      | (simp [server_zmq_send, hm, hr])
      | (cases bind_ok <;> simp [server_zmq_setup])

/-- Witness for C3 (amended): a running server with an empty queue accepts
`[1]`, and setup installs `sndhwm = rcvhwm = 1000` (the default hwm). -/
theorem C3_amended_witness :
    (server_zmq_send srv_running (some [1])).1.queue = srv_running.queue ++ [[1]] ∧
    (server_zmq_setup true idle_server).1.sock_sndhwm = some 1000 :=
  ⟨(C3_amended srv_running idle_server [1] true (by decide) rfl).1,
   (C3_amended srv_running idle_server [1] true (by decide) rfl).2.2.1⟩

/-- Claim C1 counterexample: on a valid configuration the server's start()
returns success with `running = true` immediately after spawning the two
worker threads, performing no wait on gRPC reachability; in a world where
the gRPC listener never comes up (`BuildAndStart` fails), the flag is only
cleared later, asynchronously, by the gRPC thread itself — start() never
fails with a connection-timeout error and performs no rollback, refuting
the claim for the server endpoint. -/
theorem C1_counterexample :
    (server_start idle_server cfg_ok).2 = .ok () ∧
    (server_start idle_server cfg_ok).1.running = true ∧
    (server_start_grpc false (server_start idle_server cfg_ok).1).running = false :=
  ⟨rfl, rfl, rfl⟩

/-- Claim C1 (amended): only the client waits for sync-transport
reachability.  `connect()` declares the endpoint connected only when
`WaitForConnected` succeeds within `grpc_timeout_ms`; on timeout it fails
with a connection-timeout error after rolling back every resource
(channel, socket, context) and without having spawned the ZMQ thread.
The server's `start()` declares `running = true` immediately after
spawning its threads, with no reachability wait; a gRPC startup failure
merely clears the flag later from inside the gRPC thread. -/
theorem C1_amended (reachable : Bool) (s : client_state)
    (cfg : mirage_rpc_client_config) (srv : server_state) (scfg : mirage_rpc_config)
    (hc : s.connected = false) (hv : client_validate_config cfg = .ok ())
    (hs : srv.running = false) (hsv : validate_config scfg = .ok ()) :
    (reachable = false →
      (client_connect reachable s cfg).2 = .error .connectionTimeout ∧
      (client_connect reachable s cfg).1.connected = false ∧
      (client_connect reachable s cfg).1.has_channel = false ∧
      (client_connect reachable s cfg).1.has_socket = false ∧
      (client_connect reachable s cfg).1.has_context = false ∧
      (client_connect reachable s cfg).1.zmq_thread_spawned = s.zmq_thread_spawned) ∧
    (reachable = true →
      (client_connect reachable s cfg).2 = .ok () ∧
      (client_connect reachable s cfg).1.connected = true) ∧
    (server_start srv scfg).2 = .ok () ∧
    (server_start srv scfg).1.running = true ∧
    (server_start_grpc false (server_start srv scfg).1).running = false := by
  refine ⟨?_, ?_, ?_, ?_, ?_⟩
  · intro hr; subst hr
    simp [client_connect, hc, hv, setup_grpc_channel, client_cleanup_resources]
  · intro hr; subst hr
    simp [client_connect, hc, hv, setup_grpc_channel]
  · simp [server_start, hs, hsv]
  · simp [server_start, hs, hsv]
  · simp [server_start, hs, hsv, server_start_grpc]

/-- Witness for C1 (amended): an unreachable gRPC server makes
`connect()` fail with the timeout error, while the server's `start()`
still reports running. -/
theorem C1_amended_witness :
    (client_connect false {} ccfg_ok).2 = .error .connectionTimeout ∧
    (server_start idle_server cfg_ok).1.running = true :=
  ⟨((C1_amended false {} ccfg_ok idle_server cfg_ok rfl rfl rfl rfl).1 rfl).1,
   (C1_amended false {} ccfg_ok idle_server cfg_ok rfl rfl rfl rfl).2.2.2.1⟩

/-- Claim C2 (code bug, evaluation at the failing input): with a single
queued message and a non-blocking send that reports would-block (EAGAIN),
`process_send_queue` pops the message before attempting the send and
ignores the empty send result, so the message is neither sent nor
re-queued — the queue comes back empty with nothing sent, i.e. the message
is lost to pure backpressure.  A thrown (non-EAGAIN) error likewise loses
the in-flight message while breaking the drain. -/
theorem C2_would_block_drops_message :
    process_send_queue true [.would_block] [[7]] true =
      ([], [], [.release_queue_lock, .net_send [7], .acquire_queue_lock]) ∧
    process_send_queue true [.fatal] [[7], [8]] true =
      ([[8]], [], [.release_queue_lock, .net_send [7]]) :=
  ⟨rfl, rfl⟩

/-- Claim C5: a fatal transport-level error inside the async worker
(socket setup or poll loop) moves the endpoint to an errored, not-running
state — `is_running()`/`is_connected()` read false and the worker's thread
function has returned — and the error never crosses the thread boundary as
an exception: the thread bodies `server_start_zmq` / `client_start_zmq`
are total state transformers, and whenever the try-block body reports an
escaped error the resulting state has the flag cleared. -/
theorem C5_worker_fault_absorbed (bind_ok connect_ok : Bool)
    (iters : List IterEv) (evs : List RecvEv)
    (s : server_state) (cs : client_state) (e e' : Err)
    (hs : (server_zmq_body bind_ok iters s).2.2 = some e)
    (hc : (client_zmq_body connect_ok evs cs).2.2 = some e') :
    (server_start_zmq bind_ok iters s).1.running = false ∧
    (server_start_zmq bind_ok iters s).1.zmq_thread_alive = false ∧
    (client_start_zmq connect_ok evs cs).1.connected = false ∧
    (client_start_zmq connect_ok evs cs).1.zmq_thread_alive = false := by
  rcases hb : server_zmq_body bind_ok iters s with ⟨s1, handled, err⟩
  rcases hcb : client_zmq_body connect_ok evs cs with ⟨cs1, chandled, cerr⟩
  rw [hb] at hs
  rw [hcb] at hc
  dsimp only at hs hc
  subst hs
  subst hc
  simp [server_start_zmq, hb, client_start_zmq, hcb]

/-- Witness for C5: a failing `bind`/`connect` during socket setup leaves
both endpoints not running with the worker thread exited. -/
theorem C5_worker_fault_absorbed_witness :
    (server_start_zmq false [] srv_running).1.running = false ∧
    (client_start_zmq false [] cli_sub_connected).1.connected = false :=
  ⟨(C5_worker_fault_absorbed false false [] [] srv_running cli_sub_connected
      .zmqFatal .zmqFatal rfl rfl).1,
   (C5_worker_fault_absorbed false false [] [] srv_running cli_sub_connected
      .zmqFatal .zmqFatal rfl rfl).2.2.1⟩

/-- Helper: in every drain trace of the worker the queue lock is released
immediately before each network send attempt. -/
theorem drain_loop_unlocked (outs : List SendOutcome) (q : List Msg) (running : Bool) :
    unlocked_before_send (drain_loop outs q running).2.2 = true := by
  induction q generalizing outs with
  | nil => cases running <;> simp [drain_loop, unlocked_before_send]
  | cons m rest ih =>
    cases running
    · simp [drain_loop, unlocked_before_send]
    · simp only [drain_loop]
      cases h : outs.headD .ok <;> simp [unlocked_before_send, ih]

/-- Claim C4 counterexample: the client's `zmq_send` performs the actual
network send on the caller's thread, between acquiring and releasing
`socket_mutex_` (a lock shared with the client's worker loop), and with
blocking `send_flags::none` — so the caller is exposed to network I/O
while holding the lock, refuting the claim for the client endpoint. -/
theorem C4_counterexample :
    (client_zmq_send cli_pub_connected (some [1]) true).2.2 =
      [.acquire_socket_lock, .net_send [1], .release_socket_lock] ∧
    has_net_send (client_zmq_send cli_pub_connected (some [1]) true).2.2 = true :=
  ⟨rfl, rfl⟩

/-- Claim C4 (amended): on the server, `zmq_send` performs no network I/O
at all (its trace holds no network send, only the locked append and the
notification), and the worker's drain releases the queue lock immediately
before every network send; on the client, however, `zmq_send` itself
performs the network send on the caller's thread while holding
`socket_mutex_`. -/
theorem C4_amended (s : server_state) (data : Option Msg)
    (try_lock_ok running send_ok : Bool) (outs : List SendOutcome) (q : List Msg)
    (cs : client_state) (m : Msg)
    (hm : m ≠ []) (hc : cs.connected = true)
    (hsend : sendable_type cs.config.zmq_socket_type = true)
    (hsock : cs.has_socket = true) :
    has_net_send (server_zmq_send s data).2.2 = false ∧
    unlocked_before_send (process_send_queue try_lock_ok outs q running).2.2 = true ∧
    (client_zmq_send cs (some m) send_ok).2.2 =
      [.acquire_socket_lock, .net_send m, .release_socket_lock] := by
  refine ⟨?_, ?_, ?_⟩
  · unfold server_zmq_send
    split_ifs <;> simp [has_net_send]
  · unfold process_send_queue
    split_ifs
    · exact drain_loop_unlocked outs q running
    · simp [unlocked_before_send]
  · simp [client_zmq_send, hm, hc, hsend, hsock]

/-- Witness for C4 (amended): concrete traces for a running server enqueue
and a one-message drain. -/
theorem C4_amended_witness :
    has_net_send (server_zmq_send srv_running (some [2])).2.2 = false ∧
    unlocked_before_send (process_send_queue true [.ok] [[3]] true).2.2 = true :=
  ⟨(C4_amended srv_running (some [2]) true true true [.ok] [[3]] cli_pub_connected [2]
      (by decide) rfl (by decide) rfl).1,
   (C4_amended srv_running (some [2]) true true true [.ok] [[3]] cli_pub_connected [2]
      (by decide) rfl (by decide) rfl).2.1⟩

/-- Claim C7 counterexample: a connected client (default `sub` socket) with
the valid one-byte payload `[1]` — the claim's "otherwise" clause demands
that the call append to the outbound queue and notify a consumer, but the
client's `zmq_send` fails with the socket-type error and records no queue
or notification action (the client has no outbound queue at all). -/
theorem C7_counterexample :
    cli_sub_connected.connected = true ∧
    (client_zmq_send cli_sub_connected (some [1]) true).2.1 =
      .error .socketTypeUnsupported ∧
    (client_zmq_send cli_sub_connected (some [1]) true).2.2 = [] :=
  ⟨rfl, rfl, rfl⟩

/-- Claim C7 (amended): the server's `zmq_send` behaves exactly as
claimed — invalid-payload error iff the pointer is null or the size is
zero, then not-running error iff the endpoint is not running, otherwise an
append under the queue lock followed by one notification.  The client's
`zmq_send` performs the same two checks in the same order, but then
additionally rejects non-send-capable socket modes, and on success sends
directly on the caller's thread instead of enqueueing. -/
theorem C7_amended (s : server_state) (cs : client_state) (data : Option Msg)
    (send_ok : Bool) :
    ((server_zmq_send s data).2.1 = .error .invalidArgument ↔
      (data = none ∨ data = some [])) ∧
    ((data ≠ none ∧ data ≠ some []) →
      ((server_zmq_send s data).2.1 = .error .notRunning ↔ s.running = false)) ∧
    ((data ≠ none ∧ data ≠ some []) → s.running = true →
      server_zmq_send s data =
        ({ s with queue := s.queue ++ [data.getD []] }, .ok (),
         [.acquire_queue_lock, .push_msg (data.getD []), .release_queue_lock,
          .notify_one])) ∧
    ((client_zmq_send cs data send_ok).2.1 = .error .invalidArgument ↔
      (data = none ∨ data = some [])) ∧
    ((data ≠ none ∧ data ≠ some []) →
      ((client_zmq_send cs data send_ok).2.1 = .error .notRunning ↔
        cs.connected = false)) ∧
    ((data ≠ none ∧ data ≠ some []) → cs.connected = true →
      sendable_type cs.config.zmq_socket_type = false →
      (client_zmq_send cs data send_ok).2.1 = .error .socketTypeUnsupported) ∧
    ((data ≠ none ∧ data ≠ some []) → cs.connected = true →
      sendable_type cs.config.zmq_socket_type = true → cs.has_socket = true →
      send_ok = true →
      (client_zmq_send cs data send_ok).2 =
        (.ok (), [.acquire_socket_lock, .net_send (data.getD []),
                  .release_socket_lock])) := by
  refine ⟨?_, ?_, ?_, ?_, ?_, ?_, ?_⟩
  · unfold server_zmq_send
    split_ifs with h1 h2 <;> simp [h1]
  · rintro ⟨h1, h2⟩
    unfold server_zmq_send
    rw [if_neg (by tauto)]
    cases hr : s.running <;> simp [hr]
  · rintro ⟨h1, h2⟩ hr
    unfold server_zmq_send
    rw [if_neg (by tauto), if_neg (by simp [hr])]
  · cases send_ok <;> (unfold client_zmq_send; split_ifs <;> simp_all)
  · rintro ⟨h1, h2⟩
    cases send_ok <;> (unfold client_zmq_send; split_ifs <;> simp_all)
  · rintro ⟨h1, h2⟩ hcc hst
    unfold client_zmq_send
    rw [if_neg (by tauto)]
    simp [hcc, hst]
  · rintro ⟨h1, h2⟩ hcc hst hsk hso
    subst hso
    unfold client_zmq_send
    rw [if_neg (by tauto)]
    simp [hcc, hst, hsk]

/-- Witness for C7 (amended): the server enqueues `[1]` with the expected
trace; the connected `sub`-mode client rejects the same payload. -/
theorem C7_amended_witness :
    server_zmq_send srv_running (some [1]) =
      ({ srv_running with queue := srv_running.queue ++ [[1]] }, .ok (),
       [.acquire_queue_lock, .push_msg [1], .release_queue_lock, .notify_one]) ∧
    (client_zmq_send cli_sub_connected (some [1]) true).2.1 =
      .error .socketTypeUnsupported :=
  ⟨(C7_amended srv_running cli_sub_connected (some [1]) true).2.2.1 (by decide) rfl,
   (C7_amended srv_running cli_sub_connected (some [1]) true).2.2.2.2.2.1
     (by decide) rfl (by decide)⟩

/-- Claim C8 counterexample: after a successful start, the gRPC thread is
up (blocked in `Wait()`) and the ZMQ worker hits a fatal `bind` error,
storing `running_ = false` and exiting.  The subsequent `stop()` observes
`running_ == false` and returns as a no-op — yet the spawned gRPC thread
is still executing (and still joinable), refuting "after any stop()
returns … every spawned worker thread has terminated". -/
theorem C8_counterexample :
    errored_then_stop.running = false ∧
    errored_then_stop.grpc_thread_alive = true ∧
    errored_then_stop.grpc_thread_spawned = true :=
  ⟨rfl, rfl, rfl⟩

/-- Claim C8 (amended): `stop()`/`disconnect()` are idempotent — a second
call is a no-op that joins nothing (so no double-join), and calling them
when the endpoint is not running is a no-op; after a `stop()` that
observes `running == true`, `is_running()` is false and both worker
threads are joined and terminated.  However, when a worker fault has
already cleared the flag, `stop()` is a no-op and does not join the
remaining live thread (see the counterexample). -/
theorem C8_amended (s s2 : server_state) (cs cs2 : client_state)
    (hs : s.running = true) (h2 : s2.running = false)
    (hc : cs.connected = true) (hc2 : cs2.connected = false) :
    server_stop (server_stop s).1 = ((server_stop s).1, []) ∧
    (server_stop s).1.running = false ∧
    (server_stop s).1.grpc_thread_alive = false ∧
    (server_stop s).1.zmq_thread_alive = false ∧
    (server_stop s).1.grpc_thread_spawned = false ∧
    (server_stop s).1.zmq_thread_spawned = false ∧
    server_stop s2 = (s2, []) ∧
    client_disconnect (client_disconnect cs).1 = ((client_disconnect cs).1, []) ∧
    (client_disconnect cs).1.connected = false ∧
    (client_disconnect cs).1.zmq_thread_alive = false ∧
    (client_disconnect cs).1.zmq_thread_spawned = false ∧
    client_disconnect cs2 = (cs2, []) := by
  refine ⟨?_, ?_, ?_, ?_, ?_, ?_, ?_, ?_, ?_, ?_, ?_, ?_⟩ <;>
    simp [server_stop, server_cleanup_resources, client_disconnect,
          client_cleanup_resources, hs, h2, hc, hc2]

/-- Witness for C8 (amended): stopping the running fixture clears the flag;
stopping the idle fixture is a no-op with no joins. -/
theorem C8_amended_witness :
    (server_stop srv_running).1.running = false ∧
    server_stop idle_server = (idle_server, []) :=
  ⟨(C8_amended srv_running idle_server cli_sub_connected {} rfl rfl rfl rfl).2.1,
   (C8_amended srv_running idle_server cli_sub_connected {} rfl rfl rfl rfl).2.2.2.2.2.2.1⟩

/-- Claim C10: the server's `zmq_send` performs no send-capability check —
for any running server state, whatever the configured socket mode
(including receive-only `sub`/`pull`), a valid payload is accepted and
enqueued — whereas the client's `zmq_send` fails with a runtime error
whenever the configured mode is not one of `pub`, `push`, `req`. -/
theorem C10_socket_mode_asymmetry (s : server_state) (cs : client_state) (m : Msg)
    (hm : m ≠ []) (hr : s.running = true) (hc : cs.connected = true)
    (ht : sendable_type cs.config.zmq_socket_type = false) :
    (server_zmq_send s (some m)).2.1 = .ok () ∧
    (server_zmq_send s (some m)).1.queue = s.queue ++ [m] ∧
    (client_zmq_send cs (some m) true).2.1 = .error .socketTypeUnsupported := by
  refine ⟨?_, ?_, ?_⟩ <;> simp [server_zmq_send, client_zmq_send, hm, hr, hc, ht]

/-- Witness for C10: a running `sub`-mode server accepts and enqueues `[9]`
while the connected `sub`-mode client rejects it. -/
theorem C10_socket_mode_asymmetry_witness :
    (server_zmq_send srv_running_sub (some [9])).2.1 = .ok () ∧
    (client_zmq_send cli_sub_connected (some [9]) true).2.1 =
      .error .socketTypeUnsupported :=
  ⟨(C10_socket_mode_asymmetry srv_running_sub cli_sub_connected [9]
      (by decide) rfl rfl (by decide)).1,
   (C10_socket_mode_asymmetry srv_running_sub cli_sub_connected [9]
      (by decide) rfl rfl (by decide)).2.2⟩
